import Mathlib

/-!
Shallow embedding of the roommate-matching core of the
`roommate-pwa` repository:

* `calculateMatchScore`, `rankProfilesWithMatchScore`, `toNumber`,
  `asArrayOfLowercase` from `src/pages/SwipeMatch.jsx`;
* `getChatId` from `src/pages/Chat.jsx`.

JavaScript numbers are modelled by `ℚ` (the budget arithmetic of the
scorer is exact on rationals), JavaScript strings by `List Char`
(lexicographic `<` on `List Char` is JavaScript's string `<`; the
string helpers used by the scorer — `trim`, `toLowerCase` — are given
executable models below), and a budget field — which may hold a
number, a numeric or non-numeric string, or be absent — by the
inductive `BudgetVal`, keyed to what `toNumber` does with the value.
-/

namespace RoommatePWA

/-- A JavaScript string, as a list of characters. -/
abbrev JSString := List Char

/-- The characters removed by `String.prototype.trim` (ASCII
whitespace and line terminators). -/
def isJsWhitespace (c : Char) : Bool :=
  c = ' ' || c = '\t' || c = '\n' || c = '\x0d' || c = '\x0b' || c = '\x0c'

/-- `String.prototype.trim`: drop whitespace from both ends. -/
def jsTrim (s : JSString) : JSString :=
  ((s.dropWhile isJsWhitespace).reverse.dropWhile isJsWhitespace).reverse

/-- `String.prototype.toLowerCase` on one character (ASCII range, the
alphabet the profile tags use). -/
def jsToLowerChar (c : Char) : Char :=
  if 'A' ≤ c ∧ c ≤ 'Z' then Char.ofNat (c.toNat + 32) else c

/-- `String.prototype.toLowerCase`: lower-case every character. -/
def jsToLower (s : JSString) : JSString :=
  s.map jsToLowerChar

/-- The possible states of a profile's `budget` field, as observed by
`toNumber` in `SwipeMatch.jsx`:

* `missing` — the field is absent (`undefined`/`null`) or holds another
  falsy non-zero value such as the empty string, so
  `!value && value !== 0` is true and `toNumber` returns `null`;
* `num q` — the field holds the number `q`, or a string that
  `Number(...)` converts to `q` (a numeric value of `0` also lands
  here: the `value !== 0` guard lets it through);
* `invalid` — the field holds a truthy value on which `Number(...)`
  yields `NaN` (a non-numeric string), so `toNumber` returns `null`. -/
inductive BudgetVal where
  | missing
  | num (q : ℚ)
  | invalid
  deriving DecidableEq

/-- A profile document as consumed by the scorer.  Only `budget`,
`neighborhoods` and `roommatePreferences` are read by
`calculateMatchScore`; the remaining fields (written by
`CreateProfile.jsx` and displayed by `ProfileCard`) are carried along
untouched.  A `neighborhoods` / `roommatePreferences` value of `none`
models a field that is absent or not an array (both are mapped to `[]`
by `asArrayOfLowercase`); `some l` models an array of strings. -/
structure Profile where
  name : JSString
  age : JSString
  gender : JSString
  bio : JSString
  profilePhoto : JSString
  homePhotos : List JSString
  hasHouse : Bool
  budget : BudgetVal
  neighborhoods : Option (List JSString)
  roommatePreferences : Option (List JSString)
  deriving DecidableEq

/-- `toNumber` from `SwipeMatch.jsx`: `null` for falsy-non-zero or
`NaN`-producing values, otherwise the numeric conversion. -/
def toNumber : BudgetVal → Option ℚ
  | .missing => none
  | .invalid => none
  | .num q => some q

/-- JavaScript truthiness of a number-or-null: `null` and `0` are
falsy, every other number is truthy (`NaN` never reaches this test
because `toNumber` has already turned it into `null`). -/
def truthyNum : Option ℚ → Bool
  | none => false
  | some q => q != 0

/-- `asArrayOfLowercase` from `SwipeMatch.jsx`: a falsy or non-array
value becomes `[]`; an array is mapped through
`String(v).trim().toLowerCase()` and entries that are empty after
trimming are dropped. -/
def asArrayOfLowercase : Option (List JSString) → List JSString
  | none => []
  | some l => (l.map fun v => jsToLower (jsTrim v)).filter fun v => v.length > 0

/-- `Math.round`: round half toward positive infinity. -/
def jsRound (q : ℚ) : ℤ := ⌊q + 1 / 2⌋

/-- The budget block of `calculateMatchScore` (the `score +=`
contribution of part 1): similarity scaled to 0–40 when both budgets
are truthy numbers, otherwise the neutral 20. -/
def budgetSubscore (me other : Profile) : ℚ :=
  let myBudget := toNumber me.budget
  let theirBudget := toNumber other.budget
  if truthyNum myBudget && truthyNum theirBudget then
    let diff := |myBudget.getD 0 - theirBudget.getD 0|
    let maxDiff := myBudget.getD 0 * (1 / 2)
    let ratio := max 0 (1 - diff / maxDiff)
    ratio * 40
  else
    20

/-- The shared-neighborhoods block of `calculateMatchScore` (part 2):
overlap ratio scaled to 0–35 when both normalized lists are non-empty,
otherwise the neutral 18. -/
def neighborhoodSubscore (me other : Profile) : ℚ :=
  let myNeighborhoods := asArrayOfLowercase me.neighborhoods
  let theirNeighborhoods := asArrayOfLowercase other.neighborhoods
  if 0 < myNeighborhoods.length ∧ 0 < theirNeighborhoods.length then
    let shared := myNeighborhoods.filter fun n => theirNeighborhoods.contains n
    let ratio := min ((shared.length : ℚ) / (myNeighborhoods.length : ℚ)) 1
    ratio * 35
  else
    18

/-- The roommate-preferences block of `calculateMatchScore` (part 3):
overlap ratio scaled to 0–25 when both normalized lists are non-empty,
otherwise the neutral 12. -/
def preferenceSubscore (me other : Profile) : ℚ :=
  let myPrefs := asArrayOfLowercase me.roommatePreferences
  let theirPrefs := asArrayOfLowercase other.roommatePreferences
  if 0 < myPrefs.length ∧ 0 < theirPrefs.length then
    let sharedPrefs := myPrefs.filter fun p => theirPrefs.contains p
    let ratio := min ((sharedPrefs.length : ℚ) / (myPrefs.length : ℚ)) 1
    ratio * 25
  else
    12

/-- `calculateMatchScore` from `SwipeMatch.jsx`: the three
contributions are accumulated into `score`, then
`Math.max(0, Math.min(100, Math.round(score)))` is returned. -/
def calculateMatchScore (me other : Profile) : ℤ :=
  let score := budgetSubscore me other + neighborhoodSubscore me other
    + preferenceSubscore me other
  max 0 (min 100 (jsRound score))

/-- A candidate profile extended with its `matchScore`, the shape of
the objects produced by the `.map` inside
`rankProfilesWithMatchScore`. -/
structure ScoredProfile where
  profile : Profile
  matchScore : ℤ
  deriving DecidableEq

/-- The comparator `(a, b) => b.matchScore - a.matchScore` of the
`.sort` call, as the corresponding boolean "a may come before b"
relation: the comparator is non-positive exactly when
`b.matchScore ≤ a.matchScore`. -/
def scoreDescending (a b : ScoredProfile) : Bool :=
  b.matchScore ≤ a.matchScore

/-- `rankProfilesWithMatchScore` from `SwipeMatch.jsx`: score every
candidate against `myProfile`, then sort by `matchScore` descending.
JavaScript's `Array.prototype.sort` is a stable sort, modelled by
`List.mergeSort`. -/
def rankProfilesWithMatchScore (myProfile : Profile) (others : List Profile) :
    List ScoredProfile :=
  ((others.map fun p => ScoredProfile.mk p (calculateMatchScore myProfile p)).mergeSort
    scoreDescending)

/-- `getChatId` from `Chat.jsx`: `null` when either uid is falsy (for
strings: empty), otherwise the two uids joined by `_` with the
lexicographically smaller one first. -/
def getChatId (uid1 uid2 : JSString) : Option JSString :=
  if uid1 = [] ∨ uid2 = [] then none
  else if uid1 < uid2 then some (uid1 ++ ['_'] ++ uid2)
  else some (uid2 ++ ['_'] ++ uid1)

/-! Sample profiles, used to instantiate the theorems below at
concrete inputs. -/

/-- A profile with no scoring data at all. -/
def pNoData : Profile :=
  ⟨[], [], [], [], [], [], false, .missing, none, none⟩

/-- A profile whose only scoring datum is a budget of 1000. -/
def pBudget1000 : Profile :=
  ⟨[], [], [], [], [], [], false, .num 1000, none, none⟩

/-- A profile whose only scoring datum is a budget of 1400. -/
def pBudget1400 : Profile :=
  ⟨[], [], [], [], [], [], false, .num 1400, none, none⟩

/-- A profile whose budget field holds the number 0. -/
def pBudget0 : Profile :=
  ⟨[], [], [], [], [], [], false, .num 0, none, none⟩

/-- A profile with a budget, one neighborhood tag and one roommate
preference tag. -/
def pKolej : Profile :=
  ⟨[], [], [], [], [], [], false, .num 1000,
    some [['k', 'o', 'l', 'e', 'j']], some [['t', 'i', 'd', 'y']]⟩

/-- A profile whose tag lists are present but hold only blank
strings. -/
def pBlankTags : Profile :=
  ⟨[], [], [], [], [], [], false, .num 1000,
    some [[' ', ' '], []], some [[' ', ' '], []]⟩

/-- A profile sharing `pKolej`'s scoring fields but differing on every
display field. -/
def pKolejDisplay : Profile :=
  ⟨['z'], ['9'], ['f'], ['b', 'i', 'o'], ['p'], [['h']], true, .num 1000,
    some [['k', 'o', 'l', 'e', 'j']], some [['t', 'i', 'd', 'y']]⟩

/-! Theorems. -/

/-- The final clamp of `calculateMatchScore` keeps every result
between 0 and 100. -/
theorem calculateMatchScore_range (me other : Profile) :
    0 ≤ calculateMatchScore me other ∧ calculateMatchScore me other ≤ 100 := by
  unfold calculateMatchScore
  exact ⟨le_max_left _ _, max_le (by norm_num) (min_le_left _ _)⟩

/-- Claim C1: for every viewer profile and every candidate profile,
`calculateMatchScore viewer candidate` is an integer in the closed
interval from 0 to 100. -/
theorem calculateMatchScore_in_unit_interval (viewer candidate : Profile) :
    0 ≤ calculateMatchScore viewer candidate ∧
      calculateMatchScore viewer candidate ≤ 100 :=
  calculateMatchScore_range viewer candidate

/-- Claim C3: if either profile's budget is missing or not a valid
number (`toNumber` yields `null`), the budget sub-score is exactly the
fixed neutral 20, regardless of the other profile's budget, and no
fault is raised — a score in range is still produced. -/
theorem budgetSubscore_neutral_of_invalid (A B : Profile)
    (h : toNumber A.budget = none ∨ toNumber B.budget = none) :
    budgetSubscore A B = 20 ∧
      0 ≤ calculateMatchScore A B ∧ calculateMatchScore A B ≤ 100 := by
  refine ⟨?_, calculateMatchScore_range A B⟩
  rcases h with h | h <;> simp [budgetSubscore, h, truthyNum]

/-- Witness for claim C3 at a concrete input: a viewer with no budget
against a candidate with budget 1000. -/
theorem budgetSubscore_neutral_of_invalid_witness :
    budgetSubscore pNoData pBudget1000 = 20 ∧
      0 ≤ calculateMatchScore pNoData pBudget1000 ∧
        calculateMatchScore pNoData pBudget1000 ≤ 100 :=
  budgetSubscore_neutral_of_invalid pNoData pBudget1000 (Or.inl rfl)

/-- Claim C5: when both budgets are valid non-zero numbers and equal,
the budget sub-score is exactly 40. -/
theorem budgetSubscore_of_equal_budgets (A B : Profile) (q : ℚ) (hq : q ≠ 0)
    (hA : toNumber A.budget = some q) (hB : toNumber B.budget = some q) :
    budgetSubscore A B = 40 := by
  simp [budgetSubscore, hA, hB, truthyNum, hq, sub_self, abs_zero, zero_div]

/-- Witness for claim C5 at a concrete input: two profiles that both
have budget 1000. -/
theorem budgetSubscore_of_equal_budgets_witness :
    budgetSubscore pBudget1000 pBudget1000 = 40 :=
  budgetSubscore_of_equal_budgets pBudget1000 pBudget1000 1000 (by norm_num)
    rfl rfl

/-- Claim C9: a budget equal to the number 0 is treated like a missing
budget: if either profile's budget converts to 0, the budget sub-score
is the neutral 20 (the code's truthiness guard rejects 0). -/
theorem budgetSubscore_neutral_of_zero_budget (A B : Profile)
    (h : toNumber A.budget = some 0 ∨ toNumber B.budget = some 0) :
    budgetSubscore A B = 20 := by
  rcases h with h | h <;> simp [budgetSubscore, h, truthyNum]

/-- Witness for claim C9 at a concrete input: a viewer with budget 0
against a candidate with budget 1000. -/
theorem budgetSubscore_neutral_of_zero_budget_witness :
    budgetSubscore pBudget0 pBudget1000 = 20 :=
  budgetSubscore_neutral_of_zero_budget pBudget0 pBudget1000 (Or.inl rfl)

/-- Claim C4: when both normalized neighborhood lists are non-empty
and every normalized neighborhood of the viewer also occurs in the
candidate's normalized list, the neighborhood sub-score is exactly
35. -/
theorem neighborhoodSubscore_of_full_overlap (A B : Profile)
    (hA : asArrayOfLowercase A.neighborhoods ≠ [])
    (hB : asArrayOfLowercase B.neighborhoods ≠ [])
    (hshare : ∀ x ∈ asArrayOfLowercase A.neighborhoods,
      x ∈ asArrayOfLowercase B.neighborhoods) :
    neighborhoodSubscore A B = 35 := by
  have hApos : 0 < (asArrayOfLowercase A.neighborhoods).length :=
    List.length_pos.mpr hA
  have hBpos : 0 < (asArrayOfLowercase B.neighborhoods).length :=
    List.length_pos.mpr hB
  have hfilter : (asArrayOfLowercase A.neighborhoods).filter
      (fun n => (asArrayOfLowercase B.neighborhoods).contains n) =
        asArrayOfLowercase A.neighborhoods := by
    rw [List.filter_eq_self]
    intro x hx
    simpa using hshare x hx
  have hlen : ((asArrayOfLowercase A.neighborhoods).length : ℚ) ≠ 0 := by
    exact_mod_cast hApos.ne'
  simp only [neighborhoodSubscore, if_pos (And.intro hApos hBpos), hfilter,
    div_self hlen, min_self, one_mul]

/-- Witness for claim C4 at a concrete input: two profiles that both
list the single neighborhood "kolej". -/
theorem neighborhoodSubscore_of_full_overlap_witness :
    neighborhoodSubscore pKolej pKolej = 35 :=
  neighborhoodSubscore_of_full_overlap pKolej pKolej (by decide) (by decide)
    (by decide)

/-- Normalization discards entries that are blank (empty after
trimming): a list of blank strings normalizes to the empty list. -/
theorem asArrayOfLowercase_eq_nil_of_blank (l : List JSString)
    (hblank : ∀ s ∈ l, jsTrim s = []) :
    asArrayOfLowercase (some l) = [] := by
  rw [asArrayOfLowercase, List.filter_eq_nil_iff]
  intro v hv
  rcases List.mem_map.mp hv with ⟨s, hs, rfl⟩
  rw [hblank s hs]
  simp [jsToLower]

/-- Claim C10: a neighborhoods (respectively roommate-preferences)
list all of whose entries are empty or whitespace-only is treated
exactly like an absent list: the corresponding sub-score is the
neutral 18 (respectively 12) regardless of the other profile's
list. -/
theorem subscores_neutral_of_blank_entries (A B : Profile) (l : List JSString)
    (hblank : ∀ s ∈ l, jsTrim s = []) :
    ((A.neighborhoods = some l ∨ B.neighborhoods = some l) →
      neighborhoodSubscore A B = 18) ∧
    ((A.roommatePreferences = some l ∨ B.roommatePreferences = some l) →
      preferenceSubscore A B = 12) := by
  have hnil := asArrayOfLowercase_eq_nil_of_blank l hblank
  constructor
  · rintro (h | h) <;> simp [neighborhoodSubscore, h, hnil]
  · rintro (h | h) <;> simp [preferenceSubscore, h, hnil]

/-- Witness for claim C10 at a concrete input: a profile whose tag
lists hold only blank strings, against a profile with real tags. -/
theorem subscores_neutral_of_blank_entries_witness :
    neighborhoodSubscore pBlankTags pKolej = 18 ∧
      preferenceSubscore pBlankTags pKolej = 12 := by
  have h := subscores_neutral_of_blank_entries pBlankTags pKolej
    [[' ', ' '], []] (by decide)
  exact ⟨h.1 (Or.inl rfl), h.2 (Or.inl rfl)⟩

/-- Claim C6: the score depends only on the fields `budget`,
`neighborhoods` and `roommatePreferences`.  Two candidates agreeing on
those three fields receive the same score from any viewer, however
much their display fields differ, and symmetrically two viewers
agreeing on those three fields assign the same score to any
candidate. -/
theorem calculateMatchScore_depends_only_on_scoring_fields
    (v v1 v2 c c1 c2 : Profile)
    (hcb : c1.budget = c2.budget) (hcn : c1.neighborhoods = c2.neighborhoods)
    (hcp : c1.roommatePreferences = c2.roommatePreferences)
    (hvb : v1.budget = v2.budget) (hvn : v1.neighborhoods = v2.neighborhoods)
    (hvp : v1.roommatePreferences = v2.roommatePreferences) :
    calculateMatchScore v c1 = calculateMatchScore v c2 ∧
      calculateMatchScore v1 c = calculateMatchScore v2 c := by
  constructor <;>
    simp only [calculateMatchScore, budgetSubscore, neighborhoodSubscore,
      preferenceSubscore, hcb, hcn, hcp, hvb, hvn, hvp]

/-- Witness for claim C6 at a concrete input: `pKolej` and
`pKolejDisplay` share the three scoring fields and differ on all
display fields. -/
theorem calculateMatchScore_depends_only_on_scoring_fields_witness :
    calculateMatchScore pBudget1000 pKolej =
        calculateMatchScore pBudget1000 pKolejDisplay ∧
      calculateMatchScore pKolej pBudget1000 =
        calculateMatchScore pKolejDisplay pBudget1000 :=
  calculateMatchScore_depends_only_on_scoring_fields pBudget1000 pKolej
    pKolejDisplay pBudget1000 pKolej pKolejDisplay rfl rfl rfl rfl rfl rfl

/-- Claim C7: the score is asymmetric in its arguments because
`maxDiff` is computed from the viewer's budget only: there are
profiles with valid non-zero budgets scored differently in the two
directions. -/
theorem calculateMatchScore_asymmetric :
    ∃ A B : Profile,
      (∃ qa : ℚ, toNumber A.budget = some qa ∧ qa ≠ 0) ∧
      (∃ qb : ℚ, toNumber B.budget = some qb ∧ qb ≠ 0) ∧
      calculateMatchScore A B ≠ calculateMatchScore B A := by
  refine ⟨pBudget1000, pBudget1400, ⟨1000, rfl, by norm_num⟩,
    ⟨1400, rfl, by norm_num⟩, ?_⟩
  have h1 : calculateMatchScore pBudget1000 pBudget1400 = 38 := by
    norm_num [calculateMatchScore, budgetSubscore, neighborhoodSubscore,
      preferenceSubscore, toNumber, truthyNum, asArrayOfLowercase, jsRound,
      pBudget1000, pBudget1400]
  have h2 : calculateMatchScore pBudget1400 pBudget1000 = 47 := by
    norm_num [calculateMatchScore, budgetSubscore, neighborhoodSubscore,
      preferenceSubscore, toNumber, truthyNum, asArrayOfLowercase, jsRound,
      pBudget1000, pBudget1400]
  rw [h1, h2]
  norm_num

/-- Claim C8: the pairwise chat identifier is deterministic and
symmetric: `getChatId a b` always equals `getChatId b a`; on non-empty
uids it is the lexicographically smaller uid, then an underscore, then
the larger; and when either uid is missing (empty) it is `null`. -/
theorem getChatId_symm_and_canonical (a b : JSString) :
    getChatId a b = getChatId b a ∧
      getChatId a b = if a = [] ∨ b = [] then none
        else some (min a b ++ ['_'] ++ max a b) := by
  have key : ∀ x y : JSString, getChatId x y =
      if x = [] ∨ y = [] then none
        else some (min x y ++ ['_'] ++ max x y) := by
    intro x y
    by_cases hx : x = []
    · simp [getChatId, hx]
    by_cases hy : y = []
    · simp [getChatId, hx, hy]
    have hne : ¬(x = [] ∨ y = []) := by tauto
    rw [getChatId, if_neg hne, if_neg hne]
    rcases lt_trichotomy x y with h | h | h
    · rw [if_pos h, min_eq_left h.le, max_eq_right h.le]
    · subst h
      rw [if_neg (lt_irrefl x), min_self, max_self]
    · rw [if_neg (asymm h), min_eq_right h.le, max_eq_left h.le]
  refine ⟨?_, key a b⟩
  rw [key, key]
  by_cases hx : a = [] <;> by_cases hy : b = [] <;>
    simp [hx, hy, min_comm a b, max_comm a b]

/-- The sort comparator is transitive. -/
theorem scoreDescending_trans (x y z : ScoredProfile) :
    scoreDescending x y → scoreDescending y z → scoreDescending x z := by
  simp only [scoreDescending, decide_eq_true_eq]
  exact fun hxy hyz => le_trans hyz hxy

/-- The sort comparator is total. -/
theorem scoreDescending_total (x y : ScoredProfile) :
    scoreDescending x y || scoreDescending y x := by
  simp only [scoreDescending, Bool.or_eq_true, decide_eq_true_eq]
  exact le_total y.matchScore x.matchScore

/-- Claim C2: the ranker returns a list of the same length as its
input whose entries are, as a multiset, exactly the input candidates
each extended with their `calculateMatchScore`, sorted non-increasing
by `matchScore`; and the sort is stable: two entries with equal scores
appearing in input order also appear in output order. -/
theorem rankProfilesWithMatchScore_spec (myProfile : Profile)
    (others : List Profile) :
    (rankProfilesWithMatchScore myProfile others).length = others.length ∧
    (rankProfilesWithMatchScore myProfile others).Perm
      (others.map fun p => ScoredProfile.mk p (calculateMatchScore myProfile p)) ∧
    (rankProfilesWithMatchScore myProfile others).Pairwise
      (fun x y => y.matchScore ≤ x.matchScore) ∧
    ∀ a b : ScoredProfile, a.matchScore = b.matchScore →
      [a, b].Sublist
        (others.map fun p => ScoredProfile.mk p (calculateMatchScore myProfile p)) →
      [a, b].Sublist (rankProfilesWithMatchScore myProfile others) := by
  unfold rankProfilesWithMatchScore
  refine ⟨?_, ?_, ?_, ?_⟩
  · rw [List.length_mergeSort, List.length_map]
  · exact List.mergeSort_perm _ _
  · refine (List.sorted_mergeSort scoreDescending_trans scoreDescending_total
      _).imp ?_
    intro x y h
    simpa [scoreDescending] using h
  · intro a b hab hsub
    refine List.sublist_mergeSort scoreDescending_trans scoreDescending_total
      ?_ hsub
    simp [List.pairwise_cons, scoreDescending, hab.ge]

/-- Witness for claim C2 at a concrete input: ranking two identical
candidates (an exact tie) against a viewer; the instantiated length
equation and the instantiated stability conclusion for the tied
pair. -/
theorem rankProfilesWithMatchScore_spec_witness :
    (rankProfilesWithMatchScore pBudget1000 [pKolej, pKolej]).length = 2 ∧
      [ScoredProfile.mk pKolej (calculateMatchScore pBudget1000 pKolej),
        ScoredProfile.mk pKolej (calculateMatchScore pBudget1000 pKolej)].Sublist
          (rankProfilesWithMatchScore pBudget1000 [pKolej, pKolej]) := by
  have h := rankProfilesWithMatchScore_spec pBudget1000 [pKolej, pKolej]
  refine ⟨by rw [h.1]; rfl, ?_⟩
  exact h.2.2.2
    (ScoredProfile.mk pKolej (calculateMatchScore pBudget1000 pKolej))
    (ScoredProfile.mk pKolej (calculateMatchScore pBudget1000 pKolej))
    rfl (List.Sublist.refl _)

end RoommatePWA
